import Mathlib

/-!
Verification of the step-flow controller of `resumeanalyzer.py` (JobFit AI).

The program is a Streamlit application.  Its core is a 3-step UI state
machine stored in `st.session_state` with fields `step`, `resume_content`,
`job_description`, `analysis_option`, `custom_query`, `analysis_result`,
`audio_path`.  We embed the session record, the helper functions
(`load_dotenv_config`, `get_gemini_response`, `speak_text`,
`cleanup_temp_file`, `get_analysis_prompts`, `go_to_step`) and the per-button
transition logic of `main` as Lean functions, and the external collaborators
(PDF extractor, Gemini, gTTS) as oracle parameters of the user actions.

Modelling conventions:
* Python truthiness of an optional string (`if x:`) is `pyTruthyStr`:
  false exactly for `None` and `""`.
* File-system paths of audio artifacts are abstract names (`Nat`); the
  file system is the list of existing artifact paths.
  `tempfile.NamedTemporaryFile` is modelled as allocation from a monotone
  counter (`nextPath`), reflecting that it creates a file under a name that
  does not already exist; `os.unlink` inside `cleanup_temp_file` is modelled
  as removal of the path (the defensive `except: pass` around it is for OS
  errors outside the program's control).
* `st.error` / `st.success` calls and collaborator invocations are recorded
  in an event list returned alongside the new state.
-/

/-- Python truthiness of an optional string: `None` and `""` are falsy. -/
def pyTruthyStr : Option String → Bool
  | none => false
  | some s => s ≠ ""

/-- `not s.strip()` in Python: `s.strip()` is empty exactly when every
character of `s` is whitespace (so `s` is empty or whitespace-only). -/
def isBlank (s : String) : Bool := s.data.all (fun c => c.isWhitespace)

/-- Observable effects emitted during one pass of the controller:
`st.error` messages, `st.success` messages, and invocations of the speech
synthesizer (`speak_text(...)` with the given argument text). -/
inductive Event where
  | errorMsg (msg : String)
  | successMsg (msg : String)
  | ttsInvoked (text : String)
deriving Repr, DecidableEq

/-- Outcome of one `model.generate_content` call inside
`get_gemini_response`: the prompt feedback carries a truthy block reason,
an exception is raised, or a response text is produced. -/
inductive GeminiOutcome where
  | blocked (msg : String)
  | apiError (msg : String)
  | success (text : String)
deriving Repr, DecidableEq

/-- The message `st.error`ed by `get_gemini_response` on a content-safety
block (line 37 of the source). -/
def blocked_message (m : String) : String :=
  "🚫 Content generation blocked: " ++ m

/-- The message `st.error`ed by `get_gemini_response` on a generic API
exception (line 41 of the source). -/
def api_error_message (m : String) : String :=
  "🔴 Error interacting with Gemini API: " ++ m

/-- `get_gemini_response(input_prompt, pdf_content, job_desc)`: returns the
response text, or `None` after surfacing a distinct error for a
content-safety block vs. a generic API exception. -/
def get_gemini_response : GeminiOutcome → Option String × List Event
  | .success t => (some t, [])
  | .blocked m => (none, [.errorMsg (blocked_message m)])
  | .apiError m => (none, [.errorMsg (api_error_message m)])

/-- `load_dotenv_config()`: reads `GEMINI_API_KEY` from the environment
(after `load_dotenv()`); returns `True` iff the value is truthy
(present and non-empty), configuring the API in that case. -/
def load_dotenv_config (env : List (String × String)) : Bool :=
  match env.lookup "GEMINI_API_KEY" with
  | some k => k ≠ ""
  | none => false

/-- Result of the startup check at the top of `main` (lines 185–187). -/
inductive StartupResult where
  | halted (msg : String)
  | proceeded
deriving Repr, DecidableEq

/-- The startup check in `main`: if `load_dotenv_config()` is falsy,
`st.error` a descriptive message and `st.stop()` (no further processing);
otherwise continue. -/
def startup (env : List (String × String)) : StartupResult :=
  if load_dotenv_config env then
    .proceeded
  else
    .halted "🔴 GEMINI_API_KEY not found. Please set it in your environment variables or .env file."

/-- `cleanup_temp_file(file_path)`: delete the file if it exists
(`os.path.exists` guard, then `os.unlink`). -/
def cleanup_temp_file (p : Nat) (files : List Nat) : List Nat :=
  if p ∈ files then files.filter (fun q => q ≠ p) else files

/-- `speak_text(text)`: returns `None` on falsy input; otherwise either
creates a fresh audio file and returns its path, or fails (gTTS exception)
and returns `None`.  `ttsOk` is the oracle for success of the external
synthesizer; the fresh path is drawn from the allocation counter.
Returns (result, new file system, new counter). -/
def speak_text (text : String) (ttsOk : Bool) (files : List Nat) (next : Nat) :
    Option Nat × List Nat × Nat :=
  if text = "" then (none, files, next)
  else if ttsOk then (some next, next :: files, next + 1)
  else (none, files, next)

/-- The template bodies of `get_analysis_prompts`, abridged to their opening
line: the controller treats them as opaque data (only the key set and the
`custom` substitution matter to control flow). -/
def resume_review_prompt : String :=
  "You are an experienced Hiring Manager and Resume Expert."

def skill_improvement_prompt : String :=
  "You are a Technical Recruiter and Career Advisor."

def missing_keywords_prompt : String :=
  "You are an expert ATS (Applicant Tracking System) scanner."

def match_ats_prompt : String :=
  "You are an advanced ATS simulator and Resume Analyst."

def market_insights_prompt : String :=
  "You are a Market Research Analyst specializing in HR and compensation."

def career_path_prompt : String :=
  "Act as a Career Coach."

def upskilling_prompt : String :=
  "You are a Learning and Development Advisor."

def linkedin_prompt : String :=
  "You are a LinkedIn Profile Optimization Expert and Professional Branding Coach."

/-- `get_analysis_prompts(custom_query)`: the prompt dictionary, nine keys;
the `custom` entry is the caller-supplied query text. -/
def get_analysis_prompts (custom_query : String) : List (String × String) :=
  [("resume_review", resume_review_prompt),
   ("skill_improvement", skill_improvement_prompt),
   ("missing_keywords", missing_keywords_prompt),
   ("match_ats", match_ats_prompt),
   ("market_insights", market_insights_prompt),
   ("career_path", career_path_prompt),
   ("upskilling", upskilling_prompt),
   ("linkedin", linkedin_prompt),
   ("custom", custom_query)]

/-- The keys of the `analysis_options` card dictionary in step 2 of `main`
(the UI offers exactly these nine "Select …" buttons); identical to the
key set of `get_analysis_prompts`. -/
def analysisOptionKeys : List String :=
  ["resume_review", "skill_improvement", "missing_keywords", "match_ats",
   "market_insights", "career_path", "upskilling", "linkedin", "custom"]

/-- The `st.session_state` record: fields and their initialisation as in
lines 280–299 of the source. -/
structure SessionState where
  step : Nat
  resume_content : Option String
  job_description : String
  analysis_option : Option String
  custom_query : String
  analysis_result : Option String
  audio_path : Option Nat
deriving Repr, DecidableEq

/-- Initial session state (lines 280–299): step 1, no resume, empty job
description, no option, empty custom query, no result, no audio. -/
def initSession : SessionState :=
  { step := 1
    resume_content := none
    job_description := ""
    analysis_option := none
    custom_query := ""
    analysis_result := none
    audio_path := none }

/-- `go_to_step(step)` (lines 302–303): set `st.session_state.step`. -/
def go_to_step (n : Nat) (s : SessionState) : SessionState :=
  { s with step := n }

/-- The session state together with the artifact file system and the
fresh-path allocation counter for `tempfile`. -/
structure World where
  session : SessionState
  files : List Nat
  nextPath : Nat
deriving Repr, DecidableEq

/-- The world at session start: fresh session, no artifact files. -/
def initWorld : World :=
  { session := initSession, files := [], nextPath := 0 }

/-- One user action, carrying the oracle outcomes of any external
collaborator calls it triggers. -/
inductive UserAction where
  /-- A rerun in step 1 with an uploaded file: `resume_content` is assigned
  the result of `extract_pdf_text` (`none` on extraction failure). -/
  | uploadResume (extracted : Option String)
  /-- A rerun in step 1: the job-description text area's value is assigned
  to `job_description`. -/
  | setJobDescription (jd : String)
  /-- The "Continue to Analysis Options" button in step 1. -/
  | continueToOptions
  /-- A "Select …" card button in step 2. -/
  | selectOption (key : String)
  /-- A rerun in step 2 with the custom-question text area shown: its value
  is assigned to `custom_query`. -/
  | setCustomQuery (q : String)
  /-- The "← Back" button in step 2. -/
  | backToUpload
  /-- The "Analyze Now →" button in step 2, with the Gemini and gTTS
  oracle outcomes. -/
  | analyzeNow (gem : GeminiOutcome) (ttsOk : Bool)
  /-- The "← Back to Analysis Options" button in step 3. -/
  | backToOptions
  /-- The "Start New Analysis" button in step 3. -/
  | startNewAnalysis
  /-- The "← Back to Start" button in step 3's no-result branch. -/
  | backToStart
deriving Repr, DecidableEq

/-- The step-1 upload handler (lines 354–359): `resume_content` is
overwritten with the extraction result; a success or error message is
shown according to the truthiness of the stored value. -/
def handleUpload (extracted : Option String) (w : World) : World × List Event :=
  let s := { w.session with resume_content := extracted }
  let ev := if pyTruthyStr s.resume_content then
              [Event.successMsg "✅ Resume uploaded successfully!"]
            else
              [Event.errorMsg "❌ Failed to process the PDF. Please try again."]
  ({ w with session := s }, ev)

/-- The step-1 "Continue to Analysis Options" handler (lines 374–380). -/
def handleContinue (w : World) : World × List Event :=
  if ¬ pyTruthyStr w.session.resume_content then
    (w, [.errorMsg "Please upload your resume to continue."])
  else if isBlank w.session.job_description then
    (w, [.errorMsg "Please paste the job description to continue."])
  else
    ({ w with session := go_to_step 2 w.session }, [])

/-- Lines 504–505 of the source: `if st.session_state.audio_path:
cleanup_temp_file(st.session_state.audio_path)` — delete the previously
held audio artifact file, if any. -/
def filesAfterCleanup (w : World) : List Nat :=
  match w.session.audio_path with
  | some p => cleanup_temp_file p w.files
  | none => w.files

/-- The step-2 "Analyze Now →" handler (lines 483–513): validate the
option (`if not st.session_state.analysis_option:` is falsy for both
`None` and `""`, split here over the two cases), look up the prompt, call
Gemini, and on a truthy result clean up the previous audio file,
synthesize speech from the first 500 characters, and go to step 3;
otherwise surface an error and stay. -/
def handleAnalyze (gem : GeminiOutcome) (ttsOk : Bool) (w : World) :
    World × List Event :=
  match w.session.analysis_option with
  | none => (w, [.errorMsg "Please select an analysis type."])
  | some opt =>
    if opt = "" then
      (w, [.errorMsg "Please select an analysis type."])
    else if opt = "custom" ∧ isBlank w.session.custom_query then
      (w, [.errorMsg "Please enter your custom question."])
    else
      match (get_analysis_prompts w.session.custom_query).lookup opt with
      | none => (w, [])
      | some _prompt =>
        let res := get_gemini_response gem
        let s1 := { w.session with analysis_result := res.1 }
        if pyTruthyStr s1.analysis_result then
          let t := s1.analysis_result.getD ""
          let out := speak_text (t.take 500) ttsOk (filesAfterCleanup w) w.nextPath
          ({ session := go_to_step 3 { s1 with audio_path := out.1 },
             files := out.2.1,
             nextPath := out.2.2 },
           res.2 ++ [.ttsInvoked (t.take 500)])
        else
          ({ w with session := s1 },
           res.2 ++ [.errorMsg "Failed to generate analysis. Please try again."])

/-- The step-3 "Start New Analysis" handler (lines 547–557): clean up the
audio artifact, clear option/result/custom query, keep the documents, and
return to step 1. -/
def handleStartNew (w : World) : World × List Event :=
  let cleaned :=
    match w.session.audio_path with
    | some p => ({ w with files := cleanup_temp_file p w.files,
                          session := { w.session with audio_path := none } })
    | none => w
  let s2 := { cleaned.session with
                analysis_option := none,
                analysis_result := none,
                custom_query := "" }
  ({ cleaned with session := go_to_step 1 s2 }, [])

/-- One pass of the controller for one user action: the step-gated branch
structure of `main` (only widgets of the current step exist, the nine
option buttons only for catalog keys, the custom-query text area only when
`custom` is selected, the step-3 buttons only in the matching
result-truthiness branch). -/
def applyAction : UserAction → World → World × List Event
  | .uploadResume extracted, w =>
    if w.session.step = 1 then handleUpload extracted w else (w, [])
  | .setJobDescription jd, w =>
    if w.session.step = 1 then
      ({ w with session := { w.session with job_description := jd } }, [])
    else (w, [])
  | .continueToOptions, w =>
    if w.session.step = 1 then handleContinue w else (w, [])
  | .selectOption key, w =>
    if w.session.step = 2 ∧ key ∈ analysisOptionKeys then
      ({ w with session := { w.session with analysis_option := some key } }, [])
    else (w, [])
  | .setCustomQuery q, w =>
    if w.session.step = 2 ∧ w.session.analysis_option = some "custom" then
      ({ w with session := { w.session with custom_query := q } }, [])
    else (w, [])
  | .backToUpload, w =>
    if w.session.step = 2 then
      ({ w with session := go_to_step 1 w.session }, [])
    else (w, [])
  | .analyzeNow gem ttsOk, w =>
    if w.session.step = 2 then handleAnalyze gem ttsOk w else (w, [])
  | .backToOptions, w =>
    if w.session.step = 3 ∧ pyTruthyStr w.session.analysis_result then
      ({ w with session := go_to_step 2 w.session }, [])
    else (w, [])
  | .startNewAnalysis, w =>
    if w.session.step = 3 ∧ pyTruthyStr w.session.analysis_result then
      handleStartNew w
    else (w, [])
  | .backToStart, w =>
    if w.session.step = 3 ∧ ¬ pyTruthyStr w.session.analysis_result then
      ({ w with session := go_to_step 1 w.session }, [])
    else (w, [])

/-- The worlds reachable from session start by user actions. -/
inductive Reachable : World → Prop where
  | init : Reachable initWorld
  | next (a : UserAction) {w : World} : Reachable w → Reachable (applyAction a w).1

/-- Invariant maintained by every controller pass: every existing artifact
file and any held audio path were allocated below the counter, the
Results step is only ever occupied with a truthy analysis result, and the
step is always one of 1, 2, 3. -/
def WorldInv (w : World) : Prop :=
  (∀ p ∈ w.files, p < w.nextPath) ∧
  (∀ p, w.session.audio_path = some p → p < w.nextPath) ∧
  (w.session.step = 3 → pyTruthyStr w.session.analysis_result = true) ∧
  (w.session.step = 1 ∨ w.session.step = 2 ∨ w.session.step = 3)

/-- Fixture: a step-2 session with documents present and the
`missing_keywords` option selected. -/
def readyStep2Session : SessionState :=
  { step := 2
    resume_content := some "Experienced engineer"
    job_description := "Backend engineer role"
    analysis_option := some "missing_keywords"
    custom_query := ""
    analysis_result := none
    audio_path := none }

/-- Fixture: a world in step 2 ready to analyze. -/
def readyStep2World : World :=
  { session := readyStep2Session, files := [], nextPath := 0 }

/-- Fixture: a step-2 world with no analysis option selected. -/
def noOptionWorld : World :=
  { session := { readyStep2Session with analysis_option := none },
    files := [], nextPath := 0 }

/-- Fixture: the step-2 session with the `custom` option and a blank query. -/
def blankCustomSession : SessionState :=
  { readyStep2Session with analysis_option := some "custom", custom_query := "   " }

/-- Fixture: a step-2 world with the `custom` option and a blank query. -/
def blankCustomWorld : World :=
  { session := blankCustomSession, files := [], nextPath := 0 }

/-- Fixture: reachable worlds along a concrete session
(upload, set job description, continue, select option, analyze). -/
def chain1 : World :=
  (applyAction (.uploadResume (some "Experienced engineer")) initWorld).1

def chain2 : World :=
  (applyAction (.setJobDescription "Backend engineer role") chain1).1

def chain3 : World :=
  (applyAction .continueToOptions chain2).1

def chain4 : World :=
  (applyAction (.selectOption "missing_keywords") chain3).1

def chain5 : World :=
  (applyAction (.analyzeNow (.success "Solid analysis result") true) chain4).1

/-- Fixture: the step-3 session after a successful analysis, holding an
audio artifact. -/
def resultsSession : SessionState :=
  { readyStep2Session with
      step := 3
      analysis_result := some "Solid analysis result"
      audio_path := some 0 }

/-- Fixture: a world in step 3 with one artifact file on disk. -/
def resultsWorld : World :=
  { session := resultsSession, files := [0], nextPath := 1 }

/-! ### Helper lemmas -/

theorem cleanup_not_mem_self (p : Nat) (files : List Nat) :
    p ∉ cleanup_temp_file p files := by
  unfold cleanup_temp_file
  split
  · simp [List.mem_filter]
  · assumption

theorem cleanup_subset {q p : Nat} {files : List Nat}
    (h : q ∈ cleanup_temp_file p files) : q ∈ files := by
  unfold cleanup_temp_file at h
  split at h
  · exact (List.mem_filter.mp h).1
  · exact h

theorem lookup_prompts_eq_some {opt : String} (h : opt ∈ analysisOptionKeys)
    (q : String) : ∃ pr, (get_analysis_prompts q).lookup opt = some pr := by
  fin_cases h <;> exact ⟨_, rfl⟩

theorem blocked_message_ne_api_error_message (m m' : String) :
    blocked_message m ≠ api_error_message m' := by
  intro h
  have hb : (blocked_message m).data.head? = some '🚫' := by
    obtain ⟨md⟩ := m; rfl
  have ha : (api_error_message m').data.head? = some '🔴' := by
    obtain ⟨md⟩ := m'; rfl
  rw [h, ha] at hb
  exact absurd (Option.some.inj hb) (by decide)

theorem reachable_chain1 : Reachable chain1 := .next _ .init

theorem reachable_chain2 : Reachable chain2 := .next _ reachable_chain1

theorem reachable_chain3 : Reachable chain3 := .next _ reachable_chain2

theorem reachable_chain4 : Reachable chain4 := .next _ reachable_chain3

theorem reachable_chain5 : Reachable chain5 := .next _ reachable_chain4

theorem lookup_empty_prompts (q : String) :
    (get_analysis_prompts q).lookup "" = none := rfl

theorem ne_empty_of_lookup {q opt pr : String}
    (hpr : (get_analysis_prompts q).lookup opt = some pr) : ¬ opt = "" := by
  intro h
  subst h
  rw [lookup_empty_prompts] at hpr
  cases hpr

theorem handleAnalyze_empty_option (w : World) (gem : GeminiOutcome) (ttsOk : Bool)
    (h : w.session.analysis_option = some "") :
    handleAnalyze gem ttsOk w = (w, [.errorMsg "Please select an analysis type."]) := by
  obtain ⟨⟨st, rc, jd, ao, cq, ar, ap⟩, files, next⟩ := w
  dsimp only at h ⊢
  subst h
  unfold handleAnalyze
  dsimp only
  rw [if_pos rfl]

theorem handleAnalyze_no_option (w : World) (gem : GeminiOutcome) (ttsOk : Bool)
    (h : w.session.analysis_option = none) :
    handleAnalyze gem ttsOk w = (w, [.errorMsg "Please select an analysis type."]) := by
  obtain ⟨⟨st, rc, jd, ao, cq, ar, ap⟩, files, next⟩ := w
  dsimp only at h ⊢
  subst h
  rfl

theorem handleAnalyze_blank_custom (w : World) (gem : GeminiOutcome) (ttsOk : Bool)
    (h : w.session.analysis_option = some "custom")
    (hb : isBlank w.session.custom_query = true) :
    handleAnalyze gem ttsOk w = (w, [.errorMsg "Please enter your custom question."]) := by
  obtain ⟨⟨st, rc, jd, ao, cq, ar, ap⟩, files, next⟩ := w
  dsimp only at h hb ⊢
  subst h
  unfold handleAnalyze
  dsimp only
  rw [if_neg (by decide), if_pos ⟨rfl, hb⟩]

set_option maxRecDepth 8192 in
theorem handleAnalyze_success (w : World) (ttsOk : Bool) {opt pr t : String}
    (hopt : w.session.analysis_option = some opt)
    (hc : ¬(opt = "custom" ∧ isBlank w.session.custom_query = true))
    (hpr : (get_analysis_prompts w.session.custom_query).lookup opt = some pr)
    (ht : ¬ t = "") :
    handleAnalyze (.success t) ttsOk w =
      (let out := speak_text (t.take 500) ttsOk (filesAfterCleanup w) w.nextPath
       ({ session := { w.session with
                         step := 3
                         analysis_result := some t
                         audio_path := out.1 }
          files := out.2.1
          nextPath := out.2.2 },
        [Event.ttsInvoked (t.take 500)])) := by
  obtain ⟨⟨st, rc, jd, ao, cq, ar, ap⟩, files, next⟩ := w
  dsimp only at hopt hc hpr ⊢
  subst hopt
  have hne := ne_empty_of_lookup hpr
  unfold handleAnalyze
  dsimp only
  rw [if_neg hne, if_neg hc, hpr]
  dsimp only [get_gemini_response]
  rw [if_pos (show pyTruthyStr (some t) = true by simp [pyTruthyStr, ht])]
  dsimp only [Option.getD_some, go_to_step, List.nil_append]

theorem handleAnalyze_not_truthy (w : World) (gem : GeminiOutcome) (ttsOk : Bool)
    {opt pr : String}
    (hopt : w.session.analysis_option = some opt)
    (hc : ¬(opt = "custom" ∧ isBlank w.session.custom_query = true))
    (hpr : (get_analysis_prompts w.session.custom_query).lookup opt = some pr)
    (hfail : pyTruthyStr (get_gemini_response gem).1 = false) :
    handleAnalyze gem ttsOk w =
      ({ w with session := { w.session with
                               analysis_result := (get_gemini_response gem).1 } },
       (get_gemini_response gem).2 ++
         [.errorMsg "Failed to generate analysis. Please try again."]) := by
  obtain ⟨⟨st, rc, jd, ao, cq, ar, ap⟩, files, next⟩ := w
  dsimp only at hopt hc hpr ⊢
  subst hopt
  have hne := ne_empty_of_lookup hpr
  unfold handleAnalyze
  dsimp only
  rw [if_neg hne, if_neg hc, hpr]
  dsimp only
  rw [if_neg (show ¬ pyTruthyStr (get_gemini_response gem).1 = true by
        simp [hfail])]

theorem handleAnalyze_no_prompt (w : World) (gem : GeminiOutcome) (ttsOk : Bool)
    {opt : String}
    (hne : ¬ opt = "")
    (hopt : w.session.analysis_option = some opt)
    (hc : ¬(opt = "custom" ∧ isBlank w.session.custom_query = true))
    (hlk : (get_analysis_prompts w.session.custom_query).lookup opt = none) :
    handleAnalyze gem ttsOk w = (w, []) := by
  obtain ⟨⟨st, rc, jd, ao, cq, ar, ap⟩, files, next⟩ := w
  dsimp only at hopt hc hlk ⊢
  subst hopt
  unfold handleAnalyze
  dsimp only
  rw [if_neg hne, if_neg hc, hlk]

theorem filesAfterCleanup_subset {w : World} {q : Nat}
    (h : q ∈ filesAfterCleanup w) : q ∈ w.files := by
  unfold filesAfterCleanup at h
  split at h
  · exact cleanup_subset h
  · exact h

theorem speak_text_bounds (text : String) (ttsOk : Bool) (files : List Nat)
    (next : Nat) (hf : ∀ p ∈ files, p < next) :
    (∀ p ∈ (speak_text text ttsOk files next).2.1,
        p < (speak_text text ttsOk files next).2.2) ∧
    (∀ p, (speak_text text ttsOk files next).1 = some p →
        p < (speak_text text ttsOk files next).2.2) := by
  unfold speak_text
  split_ifs
  · exact ⟨hf, fun p hp => nomatch hp⟩
  · constructor
    · intro p hp
      dsimp only at hp ⊢
      rcases List.mem_cons.mp hp with h1 | h1
      · omega
      · exact Nat.lt_trans (hf p h1) (Nat.lt_succ_self next)
    · intro p hp
      dsimp only at hp ⊢
      have h1 := Option.some.inj hp
      omega
  · exact ⟨hf, fun p hp => nomatch hp⟩

theorem worldInv_applyAction (a : UserAction) (w : World) (h : WorldInv w) :
    WorldInv (applyAction a w).1 := by
  obtain ⟨hf, ha, h3, hsr⟩ := h
  cases a with
  | uploadResume e =>
      dsimp only [applyAction]
      split
      · exact ⟨hf, ha, h3, hsr⟩
      · exact ⟨hf, ha, h3, hsr⟩
  | setJobDescription jd =>
      dsimp only [applyAction]
      split
      · exact ⟨hf, ha, h3, hsr⟩
      · exact ⟨hf, ha, h3, hsr⟩
  | continueToOptions =>
      dsimp only [applyAction]
      split
      · unfold handleContinue
        split_ifs
        all_goals
          first
            | exact ⟨hf, ha, h3, hsr⟩
            | exact ⟨hf, ha, fun hc =>
                absurd (show (2 : Nat) = 3 from hc) (by decide),
                Or.inr (Or.inl rfl)⟩
      · exact ⟨hf, ha, h3, hsr⟩
  | selectOption key =>
      dsimp only [applyAction]
      split
      · exact ⟨hf, ha, h3, hsr⟩
      · exact ⟨hf, ha, h3, hsr⟩
  | setCustomQuery q =>
      dsimp only [applyAction]
      split
      · exact ⟨hf, ha, h3, hsr⟩
      · exact ⟨hf, ha, h3, hsr⟩
  | backToUpload =>
      dsimp only [applyAction]
      split
      · exact ⟨hf, ha, fun hc => absurd (show (1 : Nat) = 3 from hc) (by decide),
                Or.inl rfl⟩
      · exact ⟨hf, ha, h3, hsr⟩
  | analyzeNow gem ttsOk =>
      dsimp only [applyAction]
      split
      · rename_i hs
        cases hao : w.session.analysis_option with
        | none =>
            rw [handleAnalyze_no_option w gem ttsOk hao]
            exact ⟨hf, ha, h3, hsr⟩
        | some opt =>
            by_cases hbc : opt = "custom" ∧ isBlank w.session.custom_query = true
            · obtain ⟨hcu, hbl⟩ := hbc
              subst hcu
              rw [handleAnalyze_blank_custom w gem ttsOk hao hbl]
              exact ⟨hf, ha, h3, hsr⟩
            · by_cases hoe : opt = ""
              · subst hoe
                rw [handleAnalyze_empty_option w gem ttsOk hao]
                exact ⟨hf, ha, h3, hsr⟩
              cases hlk : (get_analysis_prompts w.session.custom_query).lookup opt with
              | none =>
                  rw [handleAnalyze_no_prompt w gem ttsOk hoe hao hbc hlk]
                  exact ⟨hf, ha, h3, hsr⟩
              | some pr =>
                  cases gem with
                  | blocked m =>
                      rw [handleAnalyze_not_truthy w (.blocked m) ttsOk hao hbc hlk rfl]
                      exact ⟨hf, ha, fun hc =>
                        absurd (hs.symm.trans hc) (by decide), hsr⟩
                  | apiError m =>
                      rw [handleAnalyze_not_truthy w (.apiError m) ttsOk hao hbc hlk rfl]
                      exact ⟨hf, ha, fun hc =>
                        absurd (hs.symm.trans hc) (by decide), hsr⟩
                  | success t =>
                      by_cases ht : t = ""
                      · subst ht
                        rw [handleAnalyze_not_truthy w (.success "") ttsOk hao hbc hlk
                              (by simp [get_gemini_response, pyTruthyStr])]
                        exact ⟨hf, ha, fun hc =>
                          absurd (hs.symm.trans hc) (by decide), hsr⟩
                      · rw [handleAnalyze_success w ttsOk hao hbc hlk ht]
                        unfold WorldInv
                        dsimp only [go_to_step]
                        have hf' : ∀ p ∈ filesAfterCleanup w, p < w.nextPath :=
                          fun p hp => hf p (filesAfterCleanup_subset hp)
                        obtain ⟨hb1, hb2⟩ := speak_text_bounds (t.take 500)
                          ttsOk (filesAfterCleanup w) w.nextPath hf'
                        exact ⟨hb1, hb2, fun _ => by simp [pyTruthyStr, ht],
                          Or.inr (Or.inr rfl)⟩
      · exact ⟨hf, ha, h3, hsr⟩
  | backToOptions =>
      dsimp only [applyAction]
      split
      · exact ⟨hf, ha, fun hc => absurd (show (2 : Nat) = 3 from hc) (by decide),
                Or.inr (Or.inl rfl)⟩
      · exact ⟨hf, ha, h3, hsr⟩
  | startNewAnalysis =>
      obtain ⟨⟨st, rc, jd, ao, cq, ar, ap⟩, files, next⟩ := w
      dsimp only at hf ha h3
      dsimp only [applyAction]
      split
      · unfold handleStartNew
        unfold WorldInv
        cases ap with
        | none =>
            dsimp only [go_to_step]
            refine ⟨hf, ?_, ?_, Or.inl rfl⟩
            · intro p hp
              exact absurd hp (by simp)
            · intro hc
              exact absurd hc (by decide)
        | some p =>
            dsimp only [go_to_step]
            refine ⟨?_, ?_, ?_, Or.inl rfl⟩
            · intro q hq
              exact hf q (cleanup_subset hq)
            · intro q hq
              exact absurd hq (by simp)
            · intro hc
              exact absurd hc (by decide)
      · exact ⟨hf, ha, h3, hsr⟩
  | backToStart =>
      dsimp only [applyAction]
      split
      · exact ⟨hf, ha, fun hc => absurd (show (1 : Nat) = 3 from hc) (by decide),
                Or.inl rfl⟩
      · exact ⟨hf, ha, h3, hsr⟩

theorem reachable_worldInv {w : World} (h : Reachable w) : WorldInv w := by
  induction h with
  | init =>
      unfold WorldInv
      refine ⟨?_, ?_, ?_, Or.inl rfl⟩
      · intro p hp
        exact absurd hp (by simp [initWorld])
      · intro p hp
        exact absurd hp (by simp [initWorld, initSession])
      · intro hc
        exact absurd hc (by decide)
  | next a hr ih => exact worldInv_applyAction a _ ih

theorem analyze_success_inversion (w : World) (gem : GeminiOutcome) (ttsOk : Bool)
    (h2 : w.session.step = 2)
    (hsucc : (applyAction (.analyzeNow gem ttsOk) w).1.session.step = 3) :
    ∃ t, gem = .success t ∧ ¬ t = "" ∧
      applyAction (.analyzeNow gem ttsOk) w =
        (let out := speak_text (t.take 500) ttsOk (filesAfterCleanup w) w.nextPath
         ({ session := { w.session with
                           step := 3
                           analysis_result := some t
                           audio_path := out.1 }
            files := out.2.1
            nextPath := out.2.2 },
          [Event.ttsInvoked (t.take 500)])) := by
  have happ : applyAction (.analyzeNow gem ttsOk) w = handleAnalyze gem ttsOk w := by
    dsimp only [applyAction]
    rw [if_pos h2]
  rw [happ] at hsucc ⊢
  cases hao : w.session.analysis_option with
  | none =>
      rw [handleAnalyze_no_option w gem ttsOk hao] at hsucc
      exact absurd (h2.symm.trans hsucc) (by decide)
  | some opt =>
      by_cases hbc : opt = "custom" ∧ isBlank w.session.custom_query = true
      · obtain ⟨hcu, hbl⟩ := hbc
        subst hcu
        rw [handleAnalyze_blank_custom w gem ttsOk hao hbl] at hsucc
        exact absurd (h2.symm.trans hsucc) (by decide)
      · by_cases hoe : opt = ""
        · subst hoe
          rw [handleAnalyze_empty_option w gem ttsOk hao] at hsucc
          exact absurd (h2.symm.trans hsucc) (by decide)
        cases hlk : (get_analysis_prompts w.session.custom_query).lookup opt with
        | none =>
            rw [handleAnalyze_no_prompt w gem ttsOk hoe hao hbc hlk] at hsucc
            exact absurd (h2.symm.trans hsucc) (by decide)
        | some pr =>
            cases gem with
            | blocked m =>
                rw [handleAnalyze_not_truthy w (.blocked m) ttsOk hao hbc hlk rfl]
                  at hsucc
                exact absurd (h2.symm.trans hsucc) (by decide)
            | apiError m =>
                rw [handleAnalyze_not_truthy w (.apiError m) ttsOk hao hbc hlk rfl]
                  at hsucc
                exact absurd (h2.symm.trans hsucc) (by decide)
            | success t =>
                by_cases ht : t = ""
                · subst ht
                  rw [handleAnalyze_not_truthy w (.success "") ttsOk hao hbc hlk
                        (by simp [get_gemini_response, pyTruthyStr])] at hsucc
                  exact absurd (h2.symm.trans hsucc) (by decide)
                · exact ⟨t, rfl, ht, handleAnalyze_success w ttsOk hao hbc hlk ht⟩

/-! ### Claim theorems -/

/-- C1: For every session and every sequence of user actions, the session's
`step` field is always one of {1, 2, 3}: the initial value is 1 and every
transition performed by the controller sets `step` only to 1, 2, or 3. -/
theorem step_always_in_range :
    initWorld.session.step = 1 ∧
    ∀ w : World, Reachable w →
      (w.session.step = 1 ∨ w.session.step = 2 ∨ w.session.step = 3) :=
  ⟨rfl, fun _ h => (reachable_worldInv h).2.2.2⟩

/-- Witness for C1 at the initial world. -/
theorem step_always_in_range_witness :
    initWorld.session.step = 1 ∨ initWorld.session.step = 2 ∨
      initWorld.session.step = 3 :=
  step_always_in_range.2 initWorld Reachable.init

/-- C2: In step 2, the "Analyze Now" action does not change `step` to 3
when `analysis_option` is unset, nor when it is `custom` with a blank
`custom_query`: the state is unchanged (so `step` remains 2) and a
validation error is surfaced. -/
theorem analyze_guard_rejects_invalid_option (w : World) (gem : GeminiOutcome)
    (ttsOk : Bool) (h2 : w.session.step = 2)
    (hbad : w.session.analysis_option = none ∨
      (w.session.analysis_option = some "custom" ∧
        isBlank w.session.custom_query = true)) :
    (applyAction (.analyzeNow gem ttsOk) w).1 = w ∧
    (applyAction (.analyzeNow gem ttsOk) w).1.session.step = 2 ∧
    ∃ m, (applyAction (.analyzeNow gem ttsOk) w).2 = [Event.errorMsg m] := by
  have happ : applyAction (.analyzeNow gem ttsOk) w = handleAnalyze gem ttsOk w := by
    dsimp only [applyAction]
    rw [if_pos h2]
  rw [happ]
  rcases hbad with hnone | ⟨hcust, hblank⟩
  · rw [handleAnalyze_no_option w gem ttsOk hnone]
    exact ⟨rfl, h2, ⟨"Please select an analysis type.", rfl⟩⟩
  · rw [handleAnalyze_blank_custom w gem ttsOk hcust hblank]
    exact ⟨rfl, h2, ⟨"Please enter your custom question.", rfl⟩⟩

/-- Witness for C2 at a step-2 world with no option selected. -/
theorem analyze_guard_rejects_invalid_option_witness :
    (applyAction (.analyzeNow (.success "ok") true) noOptionWorld).1 =
      noOptionWorld ∧
    (applyAction (.analyzeNow (.success "ok") true) noOptionWorld).1.session.step = 2 ∧
    ∃ m, (applyAction (.analyzeNow (.success "ok") true) noOptionWorld).2 =
      [Event.errorMsg m] :=
  analyze_guard_rejects_invalid_option noOptionWorld (.success "ok") true rfl
    (Or.inl rfl)

/-- C3: In step 1, the "Continue to Analysis Options" action does not change
`step` to 2 when `resume_content` is falsy (unset or empty) or
`job_description` is blank: the state is unchanged (so `step` remains 1)
and a validation error is surfaced. -/
theorem continue_guard_rejects_missing_inputs (w : World)
    (h1 : w.session.step = 1)
    (hbad : pyTruthyStr w.session.resume_content = false ∨
      isBlank w.session.job_description = true) :
    (applyAction .continueToOptions w).1 = w ∧
    (applyAction .continueToOptions w).1.session.step = 1 ∧
    ∃ m, (applyAction .continueToOptions w).2 = [Event.errorMsg m] := by
  have happ : applyAction .continueToOptions w = handleContinue w := by
    dsimp only [applyAction]
    rw [if_pos h1]
  rw [happ]
  unfold handleContinue
  by_cases hres : pyTruthyStr w.session.resume_content = true
  · have hjd : isBlank w.session.job_description = true := by
      rcases hbad with hb | hb
      · rw [hres] at hb
        cases hb
      · exact hb
    rw [if_neg (by simp [hres]), if_pos hjd]
    exact ⟨rfl, h1, ⟨"Please paste the job description to continue.", rfl⟩⟩
  · rw [if_pos hres]
    exact ⟨rfl, h1, ⟨"Please upload your resume to continue.", rfl⟩⟩

/-- Witness for C3 at the initial world (no resume uploaded). -/
theorem continue_guard_rejects_missing_inputs_witness :
    (applyAction .continueToOptions initWorld).1 = initWorld ∧
    (applyAction .continueToOptions initWorld).1.session.step = 1 ∧
    ∃ m, (applyAction .continueToOptions initWorld).2 = [Event.errorMsg m] :=
  continue_guard_rejects_missing_inputs initWorld rfl (Or.inl rfl)

/-- C9: In step 1, an upload whose text extraction fails stores `none` into
`resume_content` regardless of its prior value (a failed re-upload
destroys previously extracted text), and an error is shown. -/
theorem failed_extraction_overwrites_resume (w : World)
    (h1 : w.session.step = 1) :
    (applyAction (.uploadResume none) w).1.session.resume_content = none ∧
    (applyAction (.uploadResume none) w).2 =
      [Event.errorMsg "❌ Failed to process the PDF. Please try again."] := by
  dsimp only [applyAction]
  rw [if_pos h1]
  unfold handleUpload
  exact ⟨rfl, rfl⟩

/-- Witness for C9 at a world that already holds extracted resume text. -/
theorem failed_extraction_overwrites_resume_witness :
    (applyAction (.uploadResume none) chain1).1.session.resume_content = none ∧
    (applyAction (.uploadResume none) chain1).2 =
      [Event.errorMsg "❌ Failed to process the PDF. Please try again."] :=
  failed_extraction_overwrites_resume chain1 rfl

/-- C5: In step 3 with a populated (truthy) `analysis_result`, the
"Start New Analysis" action sets `step` to 1, clears `analysis_option`,
`analysis_result` (to `none`) and `custom_query` (to `""`), releases any
held audio artifact (`audio_path` becomes `none` and the artifact file is
deleted), and leaves `resume_content` and `job_description` unchanged. -/
theorem start_new_resets_and_preserves_documents (w : World)
    (h3 : w.session.step = 3)
    (hres : pyTruthyStr w.session.analysis_result = true) :
    (applyAction .startNewAnalysis w).1.session.step = 1 ∧
    (applyAction .startNewAnalysis w).1.session.analysis_option = none ∧
    (applyAction .startNewAnalysis w).1.session.analysis_result = none ∧
    (applyAction .startNewAnalysis w).1.session.custom_query = "" ∧
    (applyAction .startNewAnalysis w).1.session.audio_path = none ∧
    (applyAction .startNewAnalysis w).1.session.resume_content =
      w.session.resume_content ∧
    (applyAction .startNewAnalysis w).1.session.job_description =
      w.session.job_description ∧
    (∀ p, w.session.audio_path = some p →
      p ∉ (applyAction .startNewAnalysis w).1.files) := by
  obtain ⟨⟨st, rc, jd, ao, cq, ar, ap⟩, files, next⟩ := w
  dsimp only at h3 hres ⊢
  subst h3
  dsimp only [applyAction]
  rw [if_pos ⟨rfl, hres⟩]
  unfold handleStartNew
  cases ap with
  | none =>
      dsimp only [go_to_step]
      refine ⟨rfl, rfl, rfl, rfl, rfl, rfl, rfl, ?_⟩
      intro p hp
      exact absurd hp (by simp)
  | some p =>
      dsimp only [go_to_step]
      refine ⟨rfl, rfl, rfl, rfl, rfl, rfl, rfl, ?_⟩
      intro q hq
      have hqp := Option.some.inj hq
      subst hqp
      exact cleanup_not_mem_self p files

/-- Witness for C5 at a step-3 world holding an artifact. -/
theorem start_new_resets_and_preserves_documents_witness :
    (applyAction .startNewAnalysis resultsWorld).1.session.step = 1 ∧
    (applyAction .startNewAnalysis resultsWorld).1.session.analysis_option = none ∧
    (applyAction .startNewAnalysis resultsWorld).1.session.analysis_result = none ∧
    (applyAction .startNewAnalysis resultsWorld).1.session.custom_query = "" ∧
    (applyAction .startNewAnalysis resultsWorld).1.session.audio_path = none ∧
    (applyAction .startNewAnalysis resultsWorld).1.session.resume_content =
      resultsWorld.session.resume_content ∧
    (applyAction .startNewAnalysis resultsWorld).1.session.job_description =
      resultsWorld.session.job_description ∧
    (∀ p, resultsWorld.session.audio_path = some p →
      p ∉ (applyAction .startNewAnalysis resultsWorld).1.files) :=
  start_new_resets_and_preserves_documents resultsWorld rfl rfl

/-- C4: After every successful Options→Results transition, exactly one of
{`audio_path` points at a newly created artifact that exists on disk,
`audio_path` is unset} holds, and the file referenced by the previous
`audio_path` no longer exists on disk. -/
theorem successful_analyze_audio_artifact (w : World) (gem : GeminiOutcome)
    (ttsOk : Bool) (hr : Reachable w) (h2 : w.session.step = 2)
    (hsucc : (applyAction (.analyzeNow gem ttsOk) w).1.session.step = 3) :
    ((∃ q, (applyAction (.analyzeNow gem ttsOk) w).1.session.audio_path = some q ∧
        q ∉ w.files ∧ q ∈ (applyAction (.analyzeNow gem ttsOk) w).1.files) ∨
      (applyAction (.analyzeNow gem ttsOk) w).1.session.audio_path = none) ∧
    ¬((∃ q, (applyAction (.analyzeNow gem ttsOk) w).1.session.audio_path = some q ∧
        q ∉ w.files ∧ q ∈ (applyAction (.analyzeNow gem ttsOk) w).1.files) ∧
      (applyAction (.analyzeNow gem ttsOk) w).1.session.audio_path = none) ∧
    (∀ p, w.session.audio_path = some p →
      p ∉ (applyAction (.analyzeNow gem ttsOk) w).1.files) := by
  obtain ⟨t, hgem, ht, heq⟩ := analyze_success_inversion w gem ttsOk h2 hsucc
  subst hgem
  obtain ⟨hf, ha, _, _⟩ := reachable_worldInv hr
  rw [heq]
  dsimp only
  unfold speak_text
  split_ifs with hx hy
  · refine ⟨Or.inr rfl, ?_, ?_⟩
    · rintro ⟨⟨q, hq, _⟩, _⟩
      cases hq
    · intro p hp hmem
      dsimp only at hmem
      unfold filesAfterCleanup at hmem
      rw [hp] at hmem
      exact cleanup_not_mem_self p w.files hmem
  · refine ⟨Or.inl ⟨w.nextPath, rfl, ?_, ?_⟩, ?_, ?_⟩
    · intro hmem
      exact absurd (hf _ hmem) (lt_irrefl _)
    · exact List.Mem.head _
    · rintro ⟨_, hnone⟩
      cases hnone
    · intro p hp hmem
      dsimp only at hmem
      rcases List.mem_cons.mp hmem with he | he
      · have := ha p hp
        omega
      · unfold filesAfterCleanup at he
        rw [hp] at he
        exact cleanup_not_mem_self p w.files he
  · refine ⟨Or.inr rfl, ?_, ?_⟩
    · rintro ⟨⟨q, hq, _⟩, _⟩
      cases hq
    · intro p hp hmem
      dsimp only at hmem
      unfold filesAfterCleanup at hmem
      rw [hp] at hmem
      exact cleanup_not_mem_self p w.files hmem

/-- Witness for C4 at a concrete reachable step-2 world. -/
theorem successful_analyze_audio_artifact_witness :
    ((∃ q, (applyAction (.analyzeNow (.success "Solid analysis result") true)
        chain4).1.session.audio_path = some q ∧
        q ∉ chain4.files ∧
        q ∈ (applyAction (.analyzeNow (.success "Solid analysis result") true)
          chain4).1.files) ∨
      (applyAction (.analyzeNow (.success "Solid analysis result") true)
        chain4).1.session.audio_path = none) ∧
    ¬((∃ q, (applyAction (.analyzeNow (.success "Solid analysis result") true)
        chain4).1.session.audio_path = some q ∧
        q ∉ chain4.files ∧
        q ∈ (applyAction (.analyzeNow (.success "Solid analysis result") true)
          chain4).1.files) ∧
      (applyAction (.analyzeNow (.success "Solid analysis result") true)
        chain4).1.session.audio_path = none) ∧
    (∀ p, chain4.session.audio_path = some p →
      p ∉ (applyAction (.analyzeNow (.success "Solid analysis result") true)
        chain4).1.files) :=
  successful_analyze_audio_artifact chain4 (.success "Solid analysis result")
    true reachable_chain4 (by decide) (by decide)

/-- C6: When the Gemini call fails (content-safety block or generic API
error), the Options→Results transition does not occur: `step` remains 2,
`analysis_result` is `none` afterwards, and a failure message distinct
between the two cases is surfaced. -/
theorem gemini_failure_blocks_transition (w : World) (ttsOk : Bool)
    (m m' : String) {opt pr : String}
    (h2 : w.session.step = 2)
    (hopt : w.session.analysis_option = some opt)
    (hc : ¬(opt = "custom" ∧ isBlank w.session.custom_query = true))
    (hpr : (get_analysis_prompts w.session.custom_query).lookup opt = some pr) :
    ((applyAction (.analyzeNow (.blocked m) ttsOk) w).1.session.step = 2 ∧
     (applyAction (.analyzeNow (.blocked m) ttsOk) w).1.session.analysis_result =
       none ∧
     Event.errorMsg (blocked_message m) ∈
       (applyAction (.analyzeNow (.blocked m) ttsOk) w).2) ∧
    ((applyAction (.analyzeNow (.apiError m') ttsOk) w).1.session.step = 2 ∧
     (applyAction (.analyzeNow (.apiError m') ttsOk) w).1.session.analysis_result =
       none ∧
     Event.errorMsg (api_error_message m') ∈
       (applyAction (.analyzeNow (.apiError m') ttsOk) w).2) ∧
    blocked_message m ≠ api_error_message m' := by
  have happb : applyAction (.analyzeNow (.blocked m) ttsOk) w =
      handleAnalyze (.blocked m) ttsOk w := by
    dsimp only [applyAction]
    rw [if_pos h2]
  have happa : applyAction (.analyzeNow (.apiError m') ttsOk) w =
      handleAnalyze (.apiError m') ttsOk w := by
    dsimp only [applyAction]
    rw [if_pos h2]
  refine ⟨?_, ?_, blocked_message_ne_api_error_message m m'⟩
  · rw [happb, handleAnalyze_not_truthy w (.blocked m) ttsOk hopt hc hpr rfl]
    refine ⟨h2, rfl, ?_⟩
    dsimp only [get_gemini_response]
    exact List.Mem.head _
  · rw [happa, handleAnalyze_not_truthy w (.apiError m') ttsOk hopt hc hpr rfl]
    refine ⟨h2, rfl, ?_⟩
    dsimp only [get_gemini_response]
    exact List.Mem.head _

/-- Witness for C6 at a step-2 world ready to analyze. -/
theorem gemini_failure_blocks_transition_witness :
    ((applyAction (.analyzeNow (.blocked "safety") true)
        readyStep2World).1.session.step = 2 ∧
     (applyAction (.analyzeNow (.blocked "safety") true)
        readyStep2World).1.session.analysis_result = none ∧
     Event.errorMsg (blocked_message "safety") ∈
       (applyAction (.analyzeNow (.blocked "safety") true) readyStep2World).2) ∧
    ((applyAction (.analyzeNow (.apiError "timeout") true)
        readyStep2World).1.session.step = 2 ∧
     (applyAction (.analyzeNow (.apiError "timeout") true)
        readyStep2World).1.session.analysis_result = none ∧
     Event.errorMsg (api_error_message "timeout") ∈
       (applyAction (.analyzeNow (.apiError "timeout") true) readyStep2World).2) ∧
    blocked_message "safety" ≠ api_error_message "timeout" :=
  gemini_failure_blocks_transition readyStep2World true "safety" "timeout"
    rfl rfl (by decide) rfl

/-- C7: When the Gemini call succeeds with truthy text `t`, the controller
invokes the speech synthesizer on exactly the first 500 characters of `t`,
stores `t` as `analysis_result` and moves to step 3; a synthesis failure
does not block the transition and simply leaves `audio_path` unset. -/
theorem gemini_success_tts_first_500 (w : World) (ttsOk : Bool)
    {opt pr t : String}
    (h2 : w.session.step = 2)
    (hopt : w.session.analysis_option = some opt)
    (hc : ¬(opt = "custom" ∧ isBlank w.session.custom_query = true))
    (hpr : (get_analysis_prompts w.session.custom_query).lookup opt = some pr)
    (ht : ¬ t = "") :
    (applyAction (.analyzeNow (.success t) ttsOk) w).1.session.analysis_result =
      some t ∧
    (applyAction (.analyzeNow (.success t) ttsOk) w).1.session.step = 3 ∧
    Event.ttsInvoked (t.take 500) ∈
      (applyAction (.analyzeNow (.success t) ttsOk) w).2 ∧
    (ttsOk = false →
      (applyAction (.analyzeNow (.success t) ttsOk) w).1.session.audio_path =
        none) := by
  have happ : applyAction (.analyzeNow (.success t) ttsOk) w =
      handleAnalyze (.success t) ttsOk w := by
    dsimp only [applyAction]
    rw [if_pos h2]
  rw [happ, handleAnalyze_success w ttsOk hopt hc hpr ht]
  refine ⟨rfl, rfl, ?_, ?_⟩
  · dsimp only
    exact List.Mem.head _
  · intro hts
    subst hts
    dsimp only
    unfold speak_text
    split_ifs with hx hy
    · rfl
    · exact absurd hy (by decide)
    · rfl

/-- Witness for C7 at a concrete step-2 world, with failing synthesis. -/
theorem gemini_success_tts_first_500_witness :
    (applyAction (.analyzeNow (.success "Solid analysis result") false)
      chain4).1.session.analysis_result = some "Solid analysis result" ∧
    (applyAction (.analyzeNow (.success "Solid analysis result") false)
      chain4).1.session.step = 3 ∧
    Event.ttsInvoked (("Solid analysis result").take 500) ∈
      (applyAction (.analyzeNow (.success "Solid analysis result") false)
        chain4).2 ∧
    (false = false →
      (applyAction (.analyzeNow (.success "Solid analysis result") false)
        chain4).1.session.audio_path = none) :=
  @gemini_success_tts_first_500 chain4 false "missing_keywords"
    missing_keywords_prompt "Solid analysis result" (by decide) (by decide)
    (by decide) (by decide) (by decide)

/-- C10: A successful Gemini call returning the empty string is handled
like a failure: `step` remains 2, no synthesis is attempted, `audio_path`
and the file system are unchanged, and the failure message is shown;
moreover the Results step is never occupied with a falsy
`analysis_result`. -/
theorem empty_gemini_result_treated_as_failure :
    (∀ (w : World) (ttsOk : Bool) (opt pr : String),
      w.session.step = 2 →
      w.session.analysis_option = some opt →
      ¬(opt = "custom" ∧ isBlank w.session.custom_query = true) →
      (get_analysis_prompts w.session.custom_query).lookup opt = some pr →
      ((applyAction (.analyzeNow (.success "") ttsOk) w).1.session.step = 2 ∧
       (applyAction (.analyzeNow (.success "") ttsOk) w).1.session.audio_path =
         w.session.audio_path ∧
       (applyAction (.analyzeNow (.success "") ttsOk) w).1.files = w.files ∧
       (∀ s, Event.ttsInvoked s ∉
         (applyAction (.analyzeNow (.success "") ttsOk) w).2) ∧
       Event.errorMsg "Failed to generate analysis. Please try again." ∈
         (applyAction (.analyzeNow (.success "") ttsOk) w).2)) ∧
    (∀ w : World, Reachable w → w.session.step = 3 →
      pyTruthyStr w.session.analysis_result = true) := by
  constructor
  · intro w ttsOk opt pr h2 hopt hc hpr
    have happ : applyAction (.analyzeNow (.success "") ttsOk) w =
        handleAnalyze (.success "") ttsOk w := by
      dsimp only [applyAction]
      rw [if_pos h2]
    rw [happ, handleAnalyze_not_truthy w (.success "") ttsOk hopt hc hpr
          (by simp [get_gemini_response, pyTruthyStr])]
    refine ⟨h2, rfl, rfl, ?_, ?_⟩
    · intro s hmem
      dsimp only [get_gemini_response] at hmem
      simp at hmem
    · dsimp only [get_gemini_response]
      exact List.Mem.head _
  · intro w hr h3
    exact (reachable_worldInv hr).2.2.1 h3

/-- Witness for C10: both parts at concrete worlds. -/
theorem empty_gemini_result_treated_as_failure_witness :
    ((applyAction (.analyzeNow (.success "") true)
        readyStep2World).1.session.step = 2 ∧
     (applyAction (.analyzeNow (.success "") true)
        readyStep2World).1.session.audio_path =
       readyStep2World.session.audio_path ∧
     (applyAction (.analyzeNow (.success "") true) readyStep2World).1.files =
       readyStep2World.files ∧
     (∀ s, Event.ttsInvoked s ∉
       (applyAction (.analyzeNow (.success "") true) readyStep2World).2) ∧
     Event.errorMsg "Failed to generate analysis. Please try again." ∈
       (applyAction (.analyzeNow (.success "") true) readyStep2World).2) ∧
    pyTruthyStr chain5.session.analysis_result = true :=
  ⟨empty_gemini_result_treated_as_failure.1 readyStep2World true
      "missing_keywords" missing_keywords_prompt rfl rfl (by decide) rfl,
   empty_gemini_result_treated_as_failure.2 chain5 reachable_chain5 (by decide)⟩

/-- C8 counterexample: the credential can be present in the environment yet
empty, in which case startup halts rather than proceeds, refuting
"when it is present, startup proceeds" as stated. -/
theorem startup_present_empty_key_halts :
    (([("GEMINI_API_KEY", "")] : List (String × String)).lookup
      "GEMINI_API_KEY" = some "") ∧
    startup [("GEMINI_API_KEY", "")] ≠ .proceeded := by
  decide

/-- C8 (amended): when `GEMINI_API_KEY` is absent, startup halts with a
descriptive error and no further processing occurs; when it is present
with a non-empty value, startup proceeds. -/
theorem startup_key_check (env : List (String × String)) :
    (env.lookup "GEMINI_API_KEY" = none →
      startup env = .halted "🔴 GEMINI_API_KEY not found. Please set it in your environment variables or .env file.") ∧
    (∀ k, env.lookup "GEMINI_API_KEY" = some k → ¬ k = "" →
      startup env = .proceeded) := by
  constructor
  · intro hN
    simp [startup, load_dotenv_config, hN]
  · intro k hk hke
    simp [startup, load_dotenv_config, hk, hke]

/-- Witness for C8: an absent key halts, a non-empty key proceeds. -/
theorem startup_key_check_witness :
    startup [] = .halted "🔴 GEMINI_API_KEY not found. Please set it in your environment variables or .env file." ∧
    startup [("GEMINI_API_KEY", "secret")] = .proceeded :=
  ⟨(startup_key_check []).1 rfl,
   (startup_key_check [("GEMINI_API_KEY", "secret")]).2 "secret" rfl (by decide)⟩
